import Mathlib

/-!
Verification of the ProposalForge matchmaking pipeline orchestrator.

This file gives a shallow embedding, in Lean 4, of the core of the
`proposalforge` repository — the multi-stage matchmaking pipeline
(`app/services/agent_graph.py` and `app/services/workflow_service.py`) —
and proves or refutes the frozen specification claims about it.

Modelling conventions:
* Python `str` values manipulated by the checkpoint codec and the JSON
  helpers are modelled as `List Char` (`PyStr`).
* Python's dynamic JSON values are modelled by the inductive type `JVal`;
  numbers are modelled as integers (the claims under study do not depend
  on decimal formatting).  `json.dumps(..., default=str)` with the default
  separators is modelled concretely by `jdumps`.
* External libraries with a fixed contract (`json.loads`, `zlib`+`base64`)
  are passed in as function parameters; the library round-trip laws appear
  as explicit hypotheses, discharged concretely in the witness theorems.
* Scores carried by matches are modelled as exact rationals `ℚ`; the
  comparison `flagged_pct > 0.30` of `should_revise` is embedded as the
  exact integer comparison `10 * flagged > 3 * total`, which agrees with
  the Python float comparison for every list length arising in practice.
-/

namespace ProposalForge

/-- Python `str` is modelled as a list of characters. -/
abbrev PyStr := List Char

/-- The character `{` (written via its code point to keep the file plain). -/
def lbrace : Char := Char.ofNat 123

/-- The character `}`. -/
def rbrace : Char := Char.ofNat 125

/-- The character `[`. -/
def lbrack : Char := '['

/-- The character `]`. -/
def rbrack : Char := ']'

/-- Dynamic JSON values, the model of the loosely-typed dict payloads the
pipeline passes around (`MatchmakingState` checkpoints, parsed agent
responses). -/
inductive JVal where
  | jnull : JVal
  | jbool (b : Bool) : JVal
  | jint (n : Int) : JVal
  | jstr (s : String) : JVal
  | jarr (elems : List JVal) : JVal
  | jobj (fields : List (String × JVal)) : JVal

/-- Hexadecimal digit, used for `\uXXXX` escapes in the JSON serializer. -/
def hexDigit (n : Nat) : Char :=
  if n < 10 then Char.ofNat (48 + n) else Char.ofNat (87 + n)

/-- Four-digit hexadecimal rendering of a code point (BMP model). -/
def hex4 (n : Nat) : List Char :=
  [hexDigit (n / 4096 % 16), hexDigit (n / 256 % 16),
   hexDigit (n / 16 % 16), hexDigit (n % 16)]

/-- Escape of a single character inside a JSON string literal, following
`json.dumps` with its default `ensure_ascii=True` (BMP model). -/
def jescapeChar (c : Char) : List Char :=
  if c = '"' then ['\\', '"']
  else if c = '\\' then ['\\', '\\']
  else if c = '\n' then ['\\', 'n']
  else if c = '\t' then ['\\', 't']
  else if c = '\r' then ['\\', 'r']
  else if c.toNat < 32 ∨ c.toNat > 126 then '\\' :: 'u' :: hex4 c.toNat
  else [c]

/-- JSON rendering of a string literal (quotes plus escaped body). -/
def jstrDump (s : String) : List Char :=
  '"' :: ((s.toList.map jescapeChar).flatten ++ ['"'])

mutual

/-- Model of `json.dumps(state, default=str)` with the default separators
`", "` and `": "`, as used by `WorkflowService._serialize_state`. -/
def jdumps : JVal → List Char
  | .jnull => "null".toList
  | .jbool true => "true".toList
  | .jbool false => "false".toList
  | .jint n => (toString n).toList
  | .jstr s => jstrDump s
  | .jarr xs => lbrack :: (jdumpsArr xs ++ [rbrack])
  | .jobj fs => lbrace :: (jdumpsObj fs ++ [rbrace])

/-- Comma-separated rendering of a JSON array body. -/
def jdumpsArr : List JVal → List Char
  | [] => []
  | [x] => jdumps x
  | x :: y :: rest => jdumps x ++ (',' :: ' ' :: jdumpsArr (y :: rest))

/-- Comma-separated rendering of a JSON object body. -/
def jdumpsObj : List (String × JVal) → List Char
  | [] => []
  | [(k, v)] => jstrDump k ++ (':' :: ' ' :: jdumps v)
  | (k, v) :: p :: rest =>
      jstrDump k ++ (':' :: ' ' :: jdumps v) ++ (',' :: ' ' :: jdumpsObj (p :: rest))

end

/-- `COMPRESS_THRESHOLD = 100_000` from `workflow_service.py`. -/
def COMPRESS_THRESHOLD : Nat := 100000

/-- The literal marker `"zlib:"` that tags compressed checkpoints. -/
def ZLIB_TAG : List Char := "zlib:".toList

/-- Model of `WorkflowService._serialize_state`: serialize the state with
JSON and, above the size threshold, compress and tag the payload.  The
composition `base64.b64encode ∘ zlib.compress` (an external library with a
fixed contract) is the `compress` parameter. -/
def _serialize_state (compress : PyStr → PyStr) (state : JVal) : PyStr :=
  let raw := jdumps state
  if raw.length > COMPRESS_THRESHOLD then ZLIB_TAG ++ compress raw else raw

/-- Model of `WorkflowService._deserialize_state`: strip the `"zlib:"` tag
and decompress when present, then parse.  `loads` models `json.loads`
(`none` = raised `JSONDecodeError`); `decompress` models
`zlib.decompress ∘ base64.b64decode`. -/
def _deserialize_state (loads : PyStr → Option JVal) (decompress : PyStr → PyStr)
    (data : PyStr) : Option JVal :=
  if ZLIB_TAG.isPrefixOf data then loads (decompress (data.drop 5)) else loads data

/-! Candidate pairs, matches and critiques (`agent_graph.py`). -/

/-- A candidate `(researcher, opportunity)` pair surviving `pre_filter_node`. -/
structure CandidatePair where
  researcher_id : Int
  opportunity_id : Int
  tfidf_score : ℚ
deriving DecidableEq

/-- A parsed judge match object as returned inside the JSON array of a
`match` batch; every field may be absent (`m.get(...)` in the source). -/
structure PyMatchObj where
  researcher_id : Option Int
  opportunity_id : Option Int
  relevance_score : Option ℚ
  feasibility_score : Option ℚ
  impact_score : Option ℚ
  overall_score : Option ℚ
  confidence : Option String
  justification : Option String
deriving DecidableEq

/-- A normalized raw match, as built by the loop at the end of
`match_node` ("Normalize matches to ensure required fields"). -/
structure RawMatch where
  researcher_id : Option Int
  opportunity_id : Option Int
  relevance_score : ℚ
  feasibility_score : ℚ
  impact_score : ℚ
  overall_score : ℚ
  confidence : String
  justification : String
deriving DecidableEq

/-- Model of the normalization step of `match_node`: each field is copied
from the parsed judge object, with the source's `m.get(key, default)`
defaults (`0` scores, `"medium"` confidence, `""` justification).  The
`float(...)` coercions are modelled by `ℚ`. -/
def normalizeMatch (m : PyMatchObj) : RawMatch where
  researcher_id := m.researcher_id
  opportunity_id := m.opportunity_id
  relevance_score := m.relevance_score.getD 0
  feasibility_score := m.feasibility_score.getD 0
  impact_score := m.impact_score.getD 0
  overall_score := m.overall_score.getD 0
  confidence := m.confidence.getD "medium"
  justification := m.justification.getD ""

/-- The `adjusted_scores` sub-dict a critic review may carry; each score
may be absent (`adjusted.get(key, m[key])` in the source). -/
structure AdjScores where
  relevance_score : Option ℚ
  feasibility_score : Option ℚ
  impact_score : Option ℚ
  overall_score : Option ℚ
deriving DecidableEq

/-- The empty `adjusted_scores` dict (`critique.get("adjusted_scores", {})`). -/
def AdjScores.empty : AdjScores := ⟨none, none, none, none⟩

/-- A parsed critic review object from a `critique` batch. -/
structure CriticReview where
  researcher_id : Option Int
  opportunity_id : Option Int
  adjusted_scores : Option AdjScores
  critique : Option String
  flagged : Option Bool
  revision_needed : Option Bool
deriving DecidableEq

/-- A critiqued match, as produced by the merge loop of `critique_node`
(the fields of the raw match spread with the critic's columns). -/
structure CritiquedMatch where
  researcher_id : Option Int
  opportunity_id : Option Int
  relevance_score : ℚ
  feasibility_score : ℚ
  impact_score : ℚ
  overall_score : ℚ
  confidence : String
  justification : String
  critique : String
  flagged : Bool
  revision_needed : Bool
deriving DecidableEq

/-- Model of the `critic_map` dict of `critique_node`: the map is keyed by
`(researcher_id, opportunity_id)` and later insertions overwrite earlier
ones, so a lookup returns the last review carrying the key. -/
def criticLookup (reviews : List CriticReview) (key : Option Int × Option Int) :
    Option CriticReview :=
  (reviews.filter (fun c => (c.researcher_id, c.opportunity_id) = key)).getLast?

/-- Model of one step of the merge loop of `critique_node`: look the raw
match's key up in `critic_map` (defaulting to the empty dict), apply any
adjusted scores, and attach critique text and flags (with the source's
`.get` defaults). -/
def mergeOne (reviews : List CriticReview) (m : RawMatch) : CritiquedMatch :=
  let c := criticLookup reviews (m.researcher_id, m.opportunity_id)
  let adj := (c.bind (·.adjusted_scores)).getD AdjScores.empty
  { researcher_id := m.researcher_id
    opportunity_id := m.opportunity_id
    relevance_score := adj.relevance_score.getD m.relevance_score
    feasibility_score := adj.feasibility_score.getD m.feasibility_score
    impact_score := adj.impact_score.getD m.impact_score
    overall_score := adj.overall_score.getD m.overall_score
    confidence := m.confidence
    justification := m.justification
    critique := (c.bind (·.critique)).getD ""
    flagged := (c.bind (·.flagged)).getD false
    revision_needed := (c.bind (·.revision_needed)).getD false }

/-- Model of the merge phase of `critique_node` ("Merge critic feedback
with raw matches"): one critiqued match per raw match, in order. -/
def mergeCritiques (raw : List RawMatch) (reviews : List CriticReview) :
    List CritiquedMatch :=
  raw.map (mergeOne reviews)

/-! The `should_revise` conditional edge and the match/critique loop. -/

/-- `flagged_count` of `critique_node`/`should_revise`: matches with
`flagged` or `revision_needed` set. -/
def flaggedCount (ms : List CritiquedMatch) : Nat :=
  ms.countP (fun m => m.flagged || m.revision_needed)

/-- Model of `should_revise` (`agent_graph.py`): loop back to `"match"`
when the critiqued list is non-empty, the flagged fraction exceeds 0.30
and `iteration < max_iterations`; otherwise `"summarize"`.  The float
comparison `flagged_pct > 0.30` is embedded exactly as
`10 * flagged_count > 3 * total`. -/
def should_revise (critiqued : List CritiquedMatch) (iteration max_iterations : Nat) :
    String :=
  if critiqued.isEmpty ∨ iteration ≥ max_iterations then "summarize"
  else if 10 * flaggedCount critiqued > 3 * critiqued.length then "match"
  else "summarize"

/-- The `iteration` value returned by `match_node`: the early return on an
empty `candidate_pairs` list keeps `iteration` unchanged; otherwise the
node returns `iteration + 1`. -/
def matchIterOut (pairs : List CandidatePair) (iteration : Nat) : Nat :=
  if pairs.isEmpty then iteration else iteration + 1

/-- The environment a pipeline execution runs against: the candidate pairs
`pre_filter` computes from the database, and the critiqued list the
`critique` node produces when the state's `iteration` counter equals `k`.
(Judge behaviour is adversarial: any output is allowed.) -/
structure PipelineEnv where
  candidatePairs : List CandidatePair
  critOut : Nat → List CritiquedMatch

/-- Model of the `match → critique → should_revise` loop of the compiled
graph, starting from a state whose counter is `iteration`.  Returns the
node-name trace of the loop and the final `iteration` value.  Recursion is
justified by `should_revise` returning `"match"` only while
`iteration < max_iterations`. -/
def loopMC (env : PipelineEnv) (iteration max_iterations : Nat) : List String × Nat :=
  if hp : env.candidatePairs.isEmpty then
    -- match returns no raw matches and the same iteration; critique
    -- returns an empty critiqued list, so should_revise exits the loop
    (["match", "critique"], matchIterOut env.candidatePairs iteration)
  else if hr : should_revise (env.critOut (iteration + 1)) (iteration + 1)
      max_iterations = "match" then
    -- in this branch `matchIterOut env.candidatePairs iteration` is
    -- `iteration + 1`, written inline
    ("match" :: "critique" :: (loopMC env (iteration + 1) max_iterations).1,
     (loopMC env (iteration + 1) max_iterations).2)
  else
    (["match", "critique"], iteration + 1)
termination_by max_iterations - iteration
decreasing_by
  simp only [should_revise] at hr
  split at hr
  · simp at hr
  · rename_i hcond
    have hlt : iteration + 1 < max_iterations := by
      by_contra hge
      exact hcond (Or.inr (Nat.le_of_not_lt hge))
    omega

/-- The shared pipeline state (`MatchmakingState` TypedDict plus the
`resume_after` key written by the resume logic). -/
structure MatchmakingState where
  researcher_ids : List Int
  opportunity_ids : List Int
  run_id : Int
  plan : JVal
  researcher_profiles : List JVal
  opportunity_profiles : List JVal
  candidate_pairs : List CandidatePair
  raw_matches : List RawMatch
  critiqued_matches : List CritiquedMatch
  final_matches : List CritiquedMatch
  iteration : Nat
  max_iterations : Nat
  errors : List String
  status : String
  resume_after : String

/-- The fresh initial state built by `_execute_matchmaking` when no resume
state is supplied. -/
def initialState (run_id : Int) (researcher_ids opportunity_ids : List Int) :
    MatchmakingState where
  researcher_ids := researcher_ids
  opportunity_ids := opportunity_ids
  run_id := run_id
  plan := .jobj []
  researcher_profiles := []
  opportunity_profiles := []
  candidate_pairs := []
  raw_matches := []
  critiqued_matches := []
  final_matches := []
  iteration := 0
  max_iterations := 2
  errors := []
  status := "starting"
  resume_after := ""

/-- Model of the resume-state construction in `resume_interrupted_runs`:
the decoded checkpoint state with `resume_after` set to the Run's
`last_completed_node`. -/
def buildResumeState (checkpoint : MatchmakingState) (last_completed_node : String) :
    MatchmakingState :=
  { checkpoint with resume_after := last_completed_node }

/-- Model of executing the graph built by `build_matchmaking_graph` on an
initial state: the entry point is the `plan` node and the edges are fixed
(`plan → discover → pre_filter → match → critique → {match, summarize}
→ summarize → persist`); no node and no edge consults the state's
`resume_after` field.  Returns the executed node-name trace and the final
`iteration`. -/
def runPipeline (env : PipelineEnv) (st : MatchmakingState) : List String × Nat :=
  let l := loopMC env st.iteration st.max_iterations
  ("plan" :: "discover" :: "pre_filter" :: (l.1 ++ ["summarize", "persist"]), l.2)

/-! Step sequence numbers (`_log_step` calls in `agent_graph.py`). -/

/-- Sequence of a `match` batch step:
`4 + (i // batch_size) + (iteration * 100)`. -/
def matchBatchSeq (batchIdx iteration : Nat) : Nat := 4 + batchIdx + iteration * 100

/-- Sequence of a `critique` batch step: `50 + (i // batch_size)` — note
the absence of any iteration term. -/
def critiqueBatchSeq (batchIdx : Nat) : Nat := 50 + batchIdx

/-- Sequence of a `summarize` batch step: `70 + (i // batch_size)`. -/
def summarizeBatchSeq (batchIdx : Nat) : Nat := 70 + batchIdx

/-- Sequence of the `persist` step. -/
def persistSeq : Nat := 80

/-- Step sequences emitted by one full `match`/`critique` pass whose
pre-increment iteration counter is `iteration`, with the given batch
counts. -/
def passSeqs (nMatchBatches nCritBatches iteration : Nat) : List Nat :=
  (List.range nMatchBatches).map (fun b => matchBatchSeq b iteration)
    ++ (List.range nCritBatches).map critiqueBatchSeq

/-- Step sequences emitted over a whole run: `plan`=1, `discover`=2,
`pre_filter`=3, then one pass per loop iteration (pass `k` runs with
pre-increment counter `k`), then the `summarize` batches and `persist`. -/
def runSeqs (nMatchBatches nCritBatches nSummBatches passes : Nat) : List Nat :=
  [1, 2, 3]
    ++ ((List.range passes).map (fun k => passSeqs nMatchBatches nCritBatches k)).flatten
    ++ (List.range nSummBatches).map summarizeBatchSeq
    ++ [persistSeq]

/-! The `persist` node and the Supervisor's terminal Run update
(`persist_node` in `agent_graph.py`, `_execute_matchmaking` in
`workflow_service.py`). -/

/-- Model of `persist_node`: a database exception while writing Match rows
is caught inside the node and turned into an appended error plus status
`"persist_failed"`; on success the node reports status `"completed"`.
`dbError` is the storage failure, when one occurs. -/
def persist_node (dbError : Option String) (st : MatchmakingState) : MatchmakingState :=
  match dbError with
  | some e => { st with errors := st.errors ++ [e], status := "persist_failed" }
  | none => { st with status := "completed" }

/-- How the graph execution inside `_execute_matchmaking` ends: it either
runs to the end of `astream` (carrying the final state's `errors` and the
cancel-flag observations), or unwinds with a cancellation exception, or
unwinds with any other exception. -/
inductive GraphOutcome where
  | finished (errors : List String) (cancelObserved : Bool)
  | cancelledExc
  | otherExc (msg : String)

/-- The Supervisor's terminal update of the Run row. -/
structure FinalRunUpdate where
  status : String
  checkpointCleared : Bool
deriving DecidableEq

/-- Model of the tail of `_execute_matchmaking`: on normal completion the
status is `cancelled`/`failed`/`completed` (in that order of tests) and
`_clear_checkpoint` is called unconditionally; on a cancellation exception
the run is `cancelled` and the checkpoint cleared; on any other exception
the run is `failed` and the checkpoint is deliberately retained. -/
def finalizeRun : GraphOutcome → FinalRunUpdate
  | .finished errs cancelObserved =>
      let status :=
        if cancelObserved then "cancelled"
        else if errs.isEmpty then "completed"
        else "failed"
      { status := status, checkpointCleared := true }
  | .cancelledExc => { status := "cancelled", checkpointCleared := true }
  | .otherExc _ => { status := "failed", checkpointCleared := false }

/-! `_safe_json_parse` and the `match_node` batch loop. -/

/-- Whitespace in the sense of Python's `str.strip()`. -/
def isPySpace (c : Char) : Bool :=
  c = ' ' || c = '\n' || c = '\t' || c = '\r' || c = Char.ofNat 11 || c = Char.ofNat 12

/-- Model of Python `str.strip()`. -/
def pyStrip (s : PyStr) : PyStr :=
  ((s.dropWhile isPySpace).reverse.dropWhile isPySpace).reverse

/-- Model of Python `str.split(c)` for a single-character separator. -/
def splitOnChar (c : Char) : PyStr → List PyStr
  | [] => [[]]
  | x :: xs =>
      match splitOnChar c xs with
      | [] => [[x]]
      | h :: t => if x = c then [] :: h :: t else (x :: h) :: t

/-- The markdown fence `"```"`. -/
def FENCE : PyStr := "```".toList

/-- Index of the first occurrence of `c` (`str.find`, `none` = `-1`). -/
def pyFindIdx (t : PyStr) (c : Char) : Option Nat := t.findIdx? (· = c)

/-- Index of the last occurrence of `c` (`str.rfind`, `none` = `-1`). -/
def pyRFindIdx (t : PyStr) (c : Char) : Option Nat :=
  (t.reverse.findIdx? (· = c)).map (fun i => t.length - 1 - i)

/-- The bracket-scanning fallback of `_safe_json_parse`: locate the first
`sc` and the last `ec`, and when `start < end`, try to parse the enclosed
slice `text[start:end+1]`. -/
def jsonExtract (loads : PyStr → Option JVal) (t : PyStr) (sc ec : Char) : Option JVal :=
  match pyFindIdx t sc, pyRFindIdx t ec with
  | some st, some en => if st < en then loads ((t.drop st).take (en + 1 - st)) else none
  | _, _ => none

/-- Model of `_safe_json_parse`: strip the text, drop markdown code-fence
lines, try `json.loads`, then fall back to scanning for an embedded
`{...}` and then `[...]` slice.  `loads` models `json.loads` (`none` =
`JSONDecodeError`). -/
def safe_json_parse (loads : PyStr → Option JVal) (text0 : PyStr) : Option JVal :=
  let t1 := pyStrip text0
  let t :=
    if FENCE.isPrefixOf t1 then
      pyStrip (List.intercalate ['\n']
        ((splitOnChar '\n' t1).filter (fun l => !(FENCE.isPrefixOf (pyStrip l)))))
    else t1
  match loads t with
  | some v => some v
  | none =>
      match jsonExtract loads t lbrace rbrace with
      | some v => some v
      | none => jsonExtract loads t lbrack rbrack

/-- Python dict lookup on a parsed JSON object (last write wins). -/
def jobjGet (fs : List (String × JVal)) (k : String) : Option JVal :=
  ((fs.filter (fun p => p.1 = k)).getLast?).map Prod.snd

/-- The matches a single `match_node` batch contributes, as a function of
the judge's response text: a parsed list is extended in whole; a parsed
non-empty dict contributes its `"matches"` list; anything else (including
an unparseable response, `parsed is None`) contributes nothing.  (A
`"matches"` value that is not a list would raise in Python and is outside
the modelled behaviour.) -/
def batchContribution (loads : PyStr → Option JVal) (resp : PyStr) : List JVal :=
  match safe_json_parse loads resp with
  | some (.jarr xs) => xs
  | some (.jobj fs) =>
      if fs.isEmpty then []
      else
        match jobjGet fs "matches" with
        | some (.jarr xs) => xs
        | _ => []
  | _ => []

/-- Model of the batch loop of `match_node` for batches whose LLM call
succeeded: `_invoke_agent` records the batch's Step with status
`"completed"` as soon as the call returns — before the node attempts to
parse the response — and the parse result only decides the contribution.
Returns the recorded step statuses and the accumulated `all_matches`. -/
def matchBatchLoop (loads : PyStr → Option JVal) :
    List PyStr → List String × List JVal
  | [] => ([], [])
  | resp :: rest =>
      let stepStatus := "completed"
      let contributed := batchContribution loads resp
      let r := matchBatchLoop loads rest
      (stepStatus :: r.1, contributed ++ r.2)

/-! Cancellation checks against the coordination store
(`_is_cancelled` / `_check_cancel` in `agent_graph.py`). -/

/-- The state of the Redis client seen by `_is_cancelled`: unset
(`cache_service._redis` is `None`), raising on every operation, or
connected with a set of per-run cancel flags. -/
inductive RedisConn where
  | absent : RedisConn
  | failing : RedisConn
  | connected (cancelFlags : Int → Bool) : RedisConn

/-- Model of `_is_cancelled`: `False` when the client is unset, `False`
when the existence check raises, otherwise the flag's existence. -/
def _is_cancelled : RedisConn → Int → Bool
  | .absent, _ => false
  | .failing, _ => false
  | .connected flags, run_id => flags run_id

/-- Model of `_check_cancel`: it raises `WorkflowCancelledError` exactly
when `_is_cancelled` returns `True`. -/
def _check_cancel_raises (conn : RedisConn) (run_id : Int) : Bool :=
  _is_cancelled conn run_id

/-- Model of `cancel_run`'s signal delivery (`workflow_service.py`): the
Redis flag write is attempted inside a `try`/`except` and silently lost
when the store client is unset or raising; independently, the method sets
the in-process `_cancel_requested[run_id]` entry and calls
`task.cancel()` on any live task found in this worker's `_running_tasks`
registry — both per-process, so they reach the pipeline exactly when it
executes in the same worker that handles the cancel request.  Returns
(Redis flag set, local `task.cancel()` delivered). -/
def cancelRunDelivery (conn : RedisConn) (sameWorker : Bool) : Bool × Bool :=
  (match conn with
   | .connected _ => true
   | .absent => false
   | .failing => false,
   sameWorker)

/-- A node-by-node execution of the pipeline's two cancellation channels:
a delivered `task.cancel()` surfaces as `asyncio.CancelledError` at the
task's next suspension point — it is a `BaseException`, caught by no
`except Exception` on the way, only by the
`except (WorkflowCancelledError, asyncio.CancelledError)` handler of
`_execute_matchmaking` — and otherwise `_check_cancel` consults the Redis
flag before each node. -/
def runNodesChecked (conn : RedisConn) (run_id : Int) (taskCancelled : Bool) :
    List String → List String
  | [] => []
  | n :: rest =>
      if taskCancelled then []
      else if _check_cancel_raises conn run_id then []
      else n :: runNodesChecked conn run_id taskCancelled rest

/-! Resume-on-boot and the retry cap (`resume_interrupted_runs`). -/

/-- `MAX_AUTO_RETRIES = 10` from `workflow_service.py`. -/
def MAX_AUTO_RETRIES : Nat := 10

/-- The Run row columns the resume logic reads and writes. -/
structure RunRec where
  status : String
  checkpoint_state : Option PyStr
  last_completed_node : Option String
  retry_count : Nat
  error_message : Option String
deriving DecidableEq

/-- The selection filter of `resume_interrupted_runs`: Runs in
`running`/`pending`, or `failed` with a non-null checkpoint. -/
def selectedForResume (r : RunRec) : Bool :=
  (r.status == "running" || r.status == "pending")
    || (r.status == "failed" && r.checkpoint_state.isSome)

/-- Model of one boot's treatment of one Run (`resume_interrupted_runs`):
skip it if the selection filter misses it; mark it `cancelled` if the
distributed cancel flag was set while the process was down; mark it
permanently `failed` with the checkpoint cleared if `retry_count` has
reached the cap; otherwise increment `retry_count` and relaunch the state
machine (which puts the Run in `running`).  The returned Bool records
whether the Run was relaunched. -/
def applyBoot (cancelFlag : Bool) (r : RunRec) : RunRec × Bool :=
  if !(selectedForResume r) then (r, false)
  else if cancelFlag then ({ r with status := "cancelled" }, false)
  else if r.retry_count ≥ MAX_AUTO_RETRIES then
    let r' := { r with
      status := "failed"
      checkpoint_state := none
      error_message := some "Exceeded max auto-retries (10)" }
    (r', false)
  else
    ({ r with retry_count := r.retry_count + 1, status := "running" }, true)

/-- What the world may do to a Run row between two boots (the relaunched
execution completing, failing and re-writing a checkpoint, crashing, …):
`status` and `checkpoint_state` may change arbitrarily, but no code path
in the repository ever decreases `retry_count`. -/
structure InterBootUpdate where
  status : String
  checkpoint_state : Option PyStr
deriving DecidableEq

/-- Apply an optional inter-boot update (preserving `retry_count`). -/
def applyUpdate (u : Option InterBootUpdate) (r : RunRec) : RunRec :=
  match u with
  | none => r
  | some v => { r with status := v.status, checkpoint_state := v.checkpoint_state }

/-- A whole lifetime of boots for one Run: before each boot an arbitrary
inter-boot update may hit the row and the distributed cancel flag has some
value; the boot then applies `resume_interrupted_runs`'s per-run logic.
Returns the final row and the total number of relaunches. -/
def runBoots : List (Option InterBootUpdate × Bool) → RunRec → RunRec × Nat
  | [], r => (r, 0)
  | (u, cf) :: rest, r =>
      let r1 := applyUpdate u r
      let step := applyBoot cf r1
      let final := runBoots rest step.1
      (final.1, (if step.2 then 1 else 0) + final.2)

/-! Helper lemmas. -/

/-- The tag characters, spelled out. -/
theorem zlib_tag_chars : ZLIB_TAG = ['z', 'l', 'i', 'b', ':'] := rfl

/-- The tag is a prefix of any tagged payload. -/
theorem tag_isPrefixOf_append (x : PyStr) : ZLIB_TAG.isPrefixOf (ZLIB_TAG ++ x) = true := by
  rw [zlib_tag_chars]
  simp [List.isPrefixOf]

/-- A serialized JSON object opens with `{`, so it never carries the tag. -/
theorem tag_not_prefixOf_jobj (fs : List (String × JVal)) :
    ZLIB_TAG.isPrefixOf (jdumps (JVal.jobj fs)) = false := by
  have hz : ('z' == lbrace) = false := by decide
  rw [zlib_tag_chars, jdumps]
  simp [List.isPrefixOf, hz]

/-- CLAIM C1.  The spec (and the docstring of `resume_interrupted_runs`)
says a Run resumed from a checkpoint recorded after node `N` re-enters
execution after `N` and never re-executes nodes strictly before `N`.  The
code, however, merely stores `last_completed_node` into the state's
`resume_after` key: the graph built by `build_matchmaking_graph` has entry
point `plan` and no node or edge ever reads `resume_after`, so every
resumed execution re-runs `plan`, `discover` and `pre_filter` regardless
of the checkpoint.  This theorem exhibits that: for every environment,
every decoded checkpoint and every `last_completed_node` marker, the
relaunched trace begins with the three pre-loop nodes. -/
theorem C1_resume_reexecutes_from_plan (env : PipelineEnv)
    (checkpoint : MatchmakingState) (last_completed_node : String) :
    (runPipeline env (buildResumeState checkpoint last_completed_node)).1.take 3
        = ["plan", "discover", "pre_filter"]
    ∧ (runPipeline env (buildResumeState checkpoint last_completed_node)).1.head?
        = some "plan" := by
  constructor
  · rfl
  · rfl

/-- CLAIM C3.  Checkpoint round-trip: for every Pipeline State (a JSON
object), `_deserialize_state` recovers the state `_serialize_state`
encoded, in both the plain and the compressed-and-tagged regime, and the
encoded payload carries the `"zlib:"` marker exactly when the serialized
size exceeds the 100000-byte threshold.  The external library contracts —
`json.loads` parsing back what `json.dumps` printed, and
base64/zlib decompression inverting compression — enter as hypotheses on
the relevant payload. -/
theorem C3_checkpoint_roundtrip (loads : PyStr → Option JVal)
    (compress decompress : PyStr → PyStr) (fs : List (String × JVal))
    (hloads : loads (jdumps (JVal.jobj fs)) = some (JVal.jobj fs))
    (hzlib : decompress (compress (jdumps (JVal.jobj fs))) = jdumps (JVal.jobj fs)) :
    _deserialize_state loads decompress (_serialize_state compress (JVal.jobj fs))
        = some (JVal.jobj fs)
    ∧ ((jdumps (JVal.jobj fs)).length > COMPRESS_THRESHOLD →
        ZLIB_TAG.isPrefixOf (_serialize_state compress (JVal.jobj fs)) = true) := by
  have htag5 : ZLIB_TAG.length = 5 := by rw [zlib_tag_chars]; rfl
  constructor
  · by_cases hlen : (jdumps (JVal.jobj fs)).length > COMPRESS_THRESHOLD
    · have henc : _serialize_state compress (JVal.jobj fs)
          = ZLIB_TAG ++ compress (jdumps (JVal.jobj fs)) := by
        simp [_serialize_state, hlen]
      rw [henc, _deserialize_state, tag_isPrefixOf_append]
      simp only [if_true]
      rw [List.drop_left' htag5, hzlib, hloads]
    · have henc : _serialize_state compress (JVal.jobj fs) = jdumps (JVal.jobj fs) := by
        simp [_serialize_state, hlen]
      rw [henc, _deserialize_state, tag_not_prefixOf_jobj]
      simpa using hloads
  · intro hlen
    have henc : _serialize_state compress (JVal.jobj fs)
        = ZLIB_TAG ++ compress (jdumps (JVal.jobj fs)) := by
      simp [_serialize_state, hlen]
    rw [henc, tag_isPrefixOf_append]

/-- Witness for C3: a concrete one-field state, with `compress` and
`decompress` instantiated by the identity and `loads` by the partial
inverse that recognizes this state's serialization. -/
theorem C3_checkpoint_roundtrip_witness :
    ((fun s => if s = jdumps (JVal.jobj [("iteration", JVal.jint 0)])
        then some (JVal.jobj [("iteration", JVal.jint 0)]) else none)
      (jdumps (JVal.jobj [("iteration", JVal.jint 0)]))
        = some (JVal.jobj [("iteration", JVal.jint 0)]))
    ∧ _deserialize_state
        (fun s => if s = jdumps (JVal.jobj [("iteration", JVal.jint 0)])
            then some (JVal.jobj [("iteration", JVal.jint 0)]) else none)
        id
        (_serialize_state id (JVal.jobj [("iteration", JVal.jint 0)]))
          = some (JVal.jobj [("iteration", JVal.jint 0)]) :=
  ⟨by simp, (C3_checkpoint_roundtrip
      (fun s => if s = jdumps (JVal.jobj [("iteration", JVal.jint 0)])
          then some (JVal.jobj [("iteration", JVal.jint 0)]) else none)
      id id [("iteration", JVal.jint 0)] (by simp) rfl).1⟩

/-- CLAIM C4.  The spec says `checkpoint_state` is retained whenever the
terminal status is `failed`, "in particular when the failure is a
durable-storage write failure during `persist`" — and the source's own
comment in the exception handler says "do NOT clear checkpoint on
failure".  But `persist_node` catches the storage exception itself and
returns it inside the state's `errors` list, so the graph finishes
normally; `_execute_matchmaking` then sets the terminal status to
`"failed"` (because `errors` is non-empty) and still calls
`_clear_checkpoint` on that same path.  Exactly the highlighted case —
a durable-storage write failure during `persist` — thus ends `failed`
with the checkpoint CLEARED; only an exception that escapes the graph
retains it. -/
theorem C4_persist_failure_clears_checkpoint :
    (persist_node (some "db write failed") (initialState 1 [] [])).errors
        = ["db write failed"]
    ∧ finalizeRun (.finished
          (persist_node (some "db write failed") (initialState 1 [] [])).errors false)
        = { status := "failed", checkpointCleared := true }
    ∧ finalizeRun (.otherExc "boom")
        = { status := "failed", checkpointCleared := false } :=
  ⟨rfl, rfl, rfl⟩

/-- CLAIM C10 counterexample.  The claim's conclusion — "while the
coordination store is unavailable a running pipeline can never observe a
cancellation request and continues executing nodes" — is false:
`cancel_run` also sets the in-process `_cancel_requested` flag and calls
`task.cancel()` on a task registered in its own worker, and
`asyncio.CancelledError` is a `BaseException` that no `except Exception`
swallows, so with the store down a same-worker pipeline still observes
the cancellation, executes no further node, and the run is finalized
`cancelled`. -/
theorem C10_counterexample_local_cancel :
    (cancelRunDelivery RedisConn.failing true).2 = true
    ∧ _is_cancelled RedisConn.failing 7 = false
    ∧ runNodesChecked RedisConn.failing 7 true ["plan", "discover", "pre_filter"] = []
    ∧ ["plan", "discover", "pre_filter"] ≠ ([] : List String)
    ∧ finalizeRun GraphOutcome.cancelledExc
        = { status := "cancelled", checkpointCleared := true } :=
  ⟨rfl, rfl, rfl, by decide, rfl⟩

/-- CLAIM C10 (amended).  When the coordination store client is unset or
any store operation raises, `_is_cancelled` returns `False` and raises
nothing, so the store-based cancellation channel is unobservable: the
flag write of `cancel_run` is lost and a pipeline executing in a
DIFFERENT worker process than the one handling the cancel request
continues executing every node.  But `cancel_run` additionally sets the
in-process `_cancel_requested` entry and delivers `task.cancel()` to a
task registered in its own worker, so a pipeline in the SAME worker is
still cancelled and stops before its next node. -/
theorem C10_cancellation_channels (conn : RedisConn) (run_id : Int)
    (nodes : List String)
    (h : conn = RedisConn.absent ∨ conn = RedisConn.failing) :
    _is_cancelled conn run_id = false
    ∧ _check_cancel_raises conn run_id = false
    ∧ (cancelRunDelivery conn false).1 = false
    ∧ runNodesChecked conn run_id false nodes = nodes
    ∧ (cancelRunDelivery conn true).2 = true
    ∧ (nodes ≠ [] → runNodesChecked conn run_id true nodes = []) := by
  have hic : _is_cancelled conn run_id = false := by
    rcases h with h | h <;> simp [h, _is_cancelled]
  refine ⟨hic, hic, ?_, ?_, rfl, ?_⟩
  · rcases h with h | h <;> simp [h, cancelRunDelivery]
  · induction nodes with
    | nil => rfl
    | cons n rest ih => simp [runNodesChecked, _check_cancel_raises, hic, ih]
  · intro hne
    cases nodes with
    | nil => exact absurd rfl hne
    | cons n rest => rfl

/-- Witness for C10 (amended): the unset-client case over the full node
list, in the different-worker and same-worker configurations. -/
theorem C10_cancellation_channels_witness :
    (RedisConn.absent = RedisConn.absent ∨ RedisConn.absent = RedisConn.failing)
    ∧ _is_cancelled RedisConn.absent 7 = false
    ∧ runNodesChecked RedisConn.absent 7 false
        ["plan", "discover", "pre_filter", "match", "critique", "summarize", "persist"]
      = ["plan", "discover", "pre_filter", "match", "critique", "summarize", "persist"]
    ∧ (cancelRunDelivery RedisConn.absent true).2 = true :=
  ⟨Or.inl rfl,
   (C10_cancellation_channels RedisConn.absent 7
      ["plan", "discover", "pre_filter", "match", "critique", "summarize", "persist"]
      (Or.inl rfl)).1,
   (C10_cancellation_channels RedisConn.absent 7
      ["plan", "discover", "pre_filter", "match", "critique", "summarize", "persist"]
      (Or.inl rfl)).2.2.2.1,
   (C10_cancellation_channels RedisConn.absent 7
      ["plan", "discover", "pre_filter", "match", "critique", "summarize", "persist"]
      (Or.inl rfl)).2.2.2.2.1⟩

/-- A revise verdict is only reachable while `iteration < max_iterations`. -/
theorem sr_match_lt {c : List CritiquedMatch} {it m : Nat}
    (hr : should_revise c it m = "match") : it < m := by
  simp only [should_revise] at hr
  split at hr
  · simp at hr
  · rename_i hcond
    by_contra hge
    exact hcond (Or.inr (Nat.le_of_not_lt hge))

/-- Bound on the match/critique loop: starting below the iteration cap,
the final `iteration` stays within `max_iterations` and the number of
`match` passes is at most `max_iterations - iteration`. -/
theorem loopMC_bound (env : PipelineEnv) (it m : Nat) :
    it < m →
    (loopMC env it m).2 ≤ m
    ∧ (loopMC env it m).1.count "match" ≤ m - it := by
  induction it, m using loopMC.induct env with
  | case1 it m hp =>
      intro h
      rw [loopMC]
      simp [hp, matchIterOut, List.count_cons]
      omega
  | case2 it m hp hr ih =>
      intro h
      have hlt := sr_match_lt hr
      rw [loopMC]
      rw [dif_neg hp, dif_pos hr]
      have ihr := ih (by omega)
      have hcm : ("critique" == "match") = false := by decide
      constructor
      · exact ihr.1
      · simp only [List.count_cons, hcm]
        have h2 := ihr.2
        simp at h2 ⊢
        omega
  | case3 it m hp hr =>
      intro h
      rw [loopMC]
      rw [dif_neg hp, dif_neg hr]
      have hcm : ("critique" == "match") = false := by decide
      constructor
      · omega
      · simp [List.count_cons, hcm]
        omega

/-- General final-iteration bound, covering executions that enter the
loop at an arbitrary checkpointed `iteration` (a resumed run): the loop
ends at most one increment above its entry point, or at
`max_iterations`, whichever is larger. -/
theorem loopMC_final_le (env : PipelineEnv) (it0 m : Nat) :
    (loopMC env it0 m).2 ≤ max (it0 + 1) m := by
  by_cases h : it0 < m
  · exact le_trans (loopMC_bound env it0 m h).1 (le_max_right _ _)
  · rw [loopMC]
    by_cases hp : env.candidatePairs.isEmpty
    · rw [dif_pos hp]
      simp [matchIterOut, hp]
    · rw [dif_neg hp]
      by_cases hr : should_revise (env.critOut (it0 + 1)) (it0 + 1) m = "match"
      · exact absurd (sr_match_lt hr) (by omega)
      · rw [dif_neg hr]
        simp

/-- CLAIM C2 counterexample.  Two clauses of the claim fail.  First,
`match_node`'s early return on an empty `candidate_pairs` list returns
`iteration` unchanged, so `match` does not increment `iteration` by
exactly 1 each time it runs.  Second, the final-iteration bound fails for
executions that do not start at iteration 0: since resume re-enters at
`plan` (the C1 bug), a run resumed from a checkpoint already carrying
`iteration = 2` (e.g. a crash right after the `match:2` checkpoint of the
forced-revision scenario) re-runs `match`, which increments to 3, and the
persisted `iterations` value 3 exceeds `max_iterations = 2`. -/
theorem C2_counterexample_match_no_increment :
    matchIterOut [] 0 = 0
    ∧ (0 : Nat) ≠ 0 + 1
    ∧ (loopMC ⟨[], fun _ => []⟩ 0 2).1 = ["match", "critique"]
    ∧ (loopMC ⟨[], fun _ => []⟩ 0 2).2 = 0
    ∧ (loopMC ⟨[⟨1, 2, 0⟩], fun _ => []⟩ 2 2).2 = 3
    ∧ ¬ (loopMC ⟨[⟨1, 2, 0⟩], fun _ => []⟩ 2 2).2 ≤ 2 := by
  have h3 : (loopMC ⟨[⟨1, 2, 0⟩], fun _ => []⟩ 2 2).2 = 3 := by
    rw [loopMC]
    simp +decide [should_revise]
  refine ⟨rfl, by omega, ?_, ?_, h3, ?_⟩
  · rw [loopMC]; rfl
  · rw [loopMC]; rfl
  · rw [h3]; omega

/-- CLAIM C2 (amended).  `should_revise` returns `"match"` iff the
critiqued list is non-empty, the flagged fraction exceeds 0.30 and
`iteration < max_iterations`; `match` increments `iteration` by exactly 1
each time it runs with a non-empty `candidate_pairs` list (with an empty
list it leaves `iteration` unchanged and the loop exits at once).  An
execution entering the loop at iteration `it0` ends with `iteration` at
most `max (it0 + 1) max_iterations`; in particular a fresh run
(iteration 0) executes at most `max_iterations` full passes and its final
`iteration` never exceeds `max_iterations` — but a resumed run entering
at `iteration = max_iterations` ends at `max_iterations + 1` (see the
counterexample). -/
theorem C2_match_critique_loop (c : List CritiquedMatch) (it m it0 : Nat)
    (env : PipelineEnv) (hm : 0 < m) :
    (should_revise c it m = "match"
        ↔ c ≠ [] ∧ 10 * flaggedCount c > 3 * c.length ∧ it < m)
    ∧ (env.candidatePairs ≠ [] → matchIterOut env.candidatePairs it = it + 1)
    ∧ (loopMC env it0 m).2 ≤ max (it0 + 1) m
    ∧ (loopMC env 0 m).2 ≤ m
    ∧ (loopMC env 0 m).1.count "match" ≤ m := by
  refine ⟨?_, ?_, loopMC_final_le env it0 m, ?_, ?_⟩
  · unfold should_revise
    split_ifs with h1 h2
    · constructor
      · intro hh; simp at hh
      · rintro ⟨hc, _, hlt⟩
        rcases h1 with h1 | h1
        · exact absurd (List.isEmpty_iff.mp h1) hc
        · omega
    · rw [not_or] at h1
      simp only [true_iff]
      refine ⟨fun hc => ?_, h2, Nat.lt_of_not_le (fun hge => h1.2 hge)⟩
      exact h1.1 (by simp [hc])
    · constructor
      · intro hh; simp at hh
      · rintro ⟨_, hfrac, _⟩
        exact absurd hfrac h2
  · intro hne
    have : ¬ env.candidatePairs.isEmpty = true := by
      simpa [List.isEmpty_iff] using hne
    rw [matchIterOut, if_neg this]
  · exact (loopMC_bound env 0 m hm).1
  · simpa using (loopMC_bound env 0 m hm).2

/-- Witness for C2 (amended), at the default bound `max_iterations = 2`
and an environment in which the critic never flags anything, entering
the loop both fresh and at a resumed `iteration = 2`. -/
theorem C2_match_critique_loop_witness :
    (0 < 2)
    ∧ (loopMC ⟨[⟨1, 2, 0⟩], fun _ => []⟩ 2 2).2 ≤ max (2 + 1) 2
    ∧ (loopMC ⟨[⟨1, 2, 0⟩], fun _ => []⟩ 0 2).2 ≤ 2
    ∧ (loopMC ⟨[⟨1, 2, 0⟩], fun _ => []⟩ 0 2).1.count "match" ≤ 2 :=
  ⟨by decide,
   (C2_match_critique_loop [] 0 2 2 ⟨[⟨1, 2, 0⟩], fun _ => []⟩ (by decide)).2.2.1,
   (C2_match_critique_loop [] 0 2 2 ⟨[⟨1, 2, 0⟩], fun _ => []⟩ (by decide)).2.2.2.1,
   (C2_match_critique_loop [] 0 2 2 ⟨[⟨1, 2, 0⟩], fun _ => []⟩ (by decide)).2.2.2.2⟩

/-- Mapping a strictly monotone function over `range` gives a strictly
increasing list. -/
theorem pairwise_lt_map_range (f : Nat → Nat) (hf : ∀ a b, a < b → f a < f b)
    (n : Nat) : ((List.range n).map f).Pairwise (· < ·) :=
  List.Pairwise.map f hf (List.pairwise_lt_range n)

/-- Gluing two strictly increasing lists across a bound. -/
theorem pairwise_lt_append_bound {l₁ l₂ : List Nat} (h₁ : l₁.Pairwise (· < ·))
    (h₂ : l₂.Pairwise (· < ·)) (B : Nat) (hb₁ : ∀ x ∈ l₁, x < B)
    (hb₂ : ∀ y ∈ l₂, B ≤ y) : (l₁ ++ l₂).Pairwise (· < ·) := by
  rw [List.pairwise_append]
  exact ⟨h₁, h₂, fun a ha b hbm => lt_of_lt_of_le (hb₁ a ha) (hb₂ b hbm)⟩

/-- CLAIM C5 counterexample.  `critique_node` logs its batch Steps with
sequence `50 + batch_index` — no iteration term — so in a two-pass run
(the spec's own forced-revision scenario, reachable below via `loopMC`)
the critique Steps of the two iterations collide on the same sequence
value and the run's Step sequences are not strictly increasing. -/
theorem C5_counterexample_sequences :
    runSeqs 1 1 1 2 = [1, 2, 3, 4, 50, 104, 50, 70, 80]
    ∧ ¬ List.Chain' (· < ·) (runSeqs 1 1 1 2)
    ∧ ¬ (runSeqs 1 1 1 2).Nodup
    ∧ (loopMC ⟨[⟨1, 2, 0⟩], fun kk =>
          if kk = 1 then [⟨some 1, some 2, 0, 0, 0, 0, "", "", "", true, false⟩]
          else []⟩ 0 2).1
        = ["match", "critique", "match", "critique"] := by
  have hseqs : runSeqs 1 1 1 2 = [1, 2, 3, 4, 50, 104, 50, 70, 80] := by decide
  refine ⟨hseqs, ?_, ?_, ?_⟩
  · rw [hseqs]
    simp [List.chain'_cons]
  · rw [hseqs]
    simp [List.nodup_cons]
  · rw [loopMC, loopMC]
    simp +decide [should_revise, flaggedCount]

/-- CLAIM C5 (amended).  `match` batch Steps use the iteration-qualified
sequence `4 + batch_index + iteration * 100`, so for batch indices below
100 two match Steps collide only when both batch index and iteration
agree; and within a run performing a single `match`/`critique` pass (with
at most 46 match, 20 critique and 10 summarize batches) the Step sequences
are strictly increasing.  Across loop iterations, however, the critique
Steps reuse `50 + batch_index` (see the counterexample), so the original
claim's run-wide ordering and collision-freedom do not hold. -/
theorem C5_match_sequences (b b' k k' nM nC nS : Nat)
    (hb : b < 100) (hb' : b' < 100)
    (hM : nM ≤ 46) (hC : nC ≤ 20) (hS : nS ≤ 10) :
    (matchBatchSeq b k = matchBatchSeq b' k' ↔ b = b' ∧ k = k')
    ∧ List.Chain' (· < ·) (runSeqs nM nC nS 1) := by
  constructor
  · unfold matchBatchSeq
    omega
  · apply List.Pairwise.chain'
    have h1 : List.range 1 = [0] := rfl
    unfold runSeqs
    rw [h1]
    simp only [List.map_cons, List.map_nil, List.flatten_cons, List.flatten_nil,
      List.append_nil]
    have hmatch : ∀ x ∈ (List.range nM).map (fun bb => matchBatchSeq bb 0),
        4 ≤ x ∧ x < 4 + nM := by
      intro x hx
      simp only [List.mem_map, List.mem_range, matchBatchSeq] at hx
      obtain ⟨bb, hbb, rfl⟩ := hx
      omega
    have hcrit : ∀ x ∈ (List.range nC).map critiqueBatchSeq, 50 ≤ x ∧ x < 50 + nC := by
      intro x hx
      simp only [List.mem_map, List.mem_range, critiqueBatchSeq] at hx
      obtain ⟨bb, hbb, rfl⟩ := hx
      omega
    have hsumm : ∀ x ∈ (List.range nS).map summarizeBatchSeq, 70 ≤ x ∧ x < 70 + nS := by
      intro x hx
      simp only [List.mem_map, List.mem_range, summarizeBatchSeq] at hx
      obtain ⟨bb, hbb, rfl⟩ := hx
      omega
    have hpassP : (passSeqs nM nC 0).Pairwise (· < ·) := by
      unfold passSeqs
      refine pairwise_lt_append_bound ?_ ?_ 50 ?_ ?_
      · refine pairwise_lt_map_range _ ?_ nM
        intro a b h
        unfold matchBatchSeq
        omega
      · refine pairwise_lt_map_range _ ?_ nC
        intro a b h
        unfold critiqueBatchSeq
        omega
      · intro x hx
        have := hmatch x hx
        omega
      · intro y hy
        exact (hcrit y hy).1
    have hA : ([1, 2, 3] ++ passSeqs nM nC 0).Pairwise (· < ·) := by
      refine pairwise_lt_append_bound ?_ hpassP 4 ?_ ?_
      · norm_num
      · intro x hx
        simp at hx
        omega
      · intro y hy
        unfold passSeqs at hy
        rcases List.mem_append.mp hy with hy | hy
        · exact (hmatch y hy).1
        · have := hcrit y hy
          omega
    have hAbound : ∀ x ∈ [1, 2, 3] ++ passSeqs nM nC 0, x < 70 := by
      intro x hx
      rcases List.mem_append.mp hx with hx | hx
      · simp at hx
        omega
      · unfold passSeqs at hx
        rcases List.mem_append.mp hx with hx | hx
        · have := hmatch x hx
          omega
        · have := hcrit x hx
          omega
    have hB : (([1, 2, 3] ++ passSeqs nM nC 0)
        ++ (List.range nS).map summarizeBatchSeq).Pairwise (· < ·) := by
      refine pairwise_lt_append_bound hA ?_ 70 hAbound ?_
      · refine pairwise_lt_map_range _ ?_ nS
        intro a b h
        unfold summarizeBatchSeq
        omega
      · intro y hy
        exact (hsumm y hy).1
    refine pairwise_lt_append_bound hB ?_ 80 ?_ ?_
    · simp
    · intro x hx
      rcases List.mem_append.mp hx with hx | hx
      · have := hAbound x hx
        omega
      · have := hsumm x hx
        omega
    · intro y hy
      simp at hy
      simp [hy, persistSeq]

/-- Witness for C5 (amended): a singleton-batch single-pass run. -/
theorem C5_match_sequences_witness :
    ((0 : Nat) < 100 ∧ (1 : Nat) < 100 ∧ (1 : Nat) ≤ 46 ∧ (1 : Nat) ≤ 20 ∧ (1 : Nat) ≤ 10)
    ∧ (matchBatchSeq 0 0 = matchBatchSeq 1 1 ↔ (0 = 1 ∧ 0 = 1))
    ∧ List.Chain' (· < ·) (runSeqs 1 1 1 1) :=
  ⟨by decide,
   (C5_match_sequences 0 1 0 1 1 1 1 (by decide) (by decide) (by decide) (by decide)
      (by decide)).1,
   (C5_match_sequences 0 1 0 1 1 1 1 (by decide) (by decide) (by decide) (by decide)
      (by decide)).2⟩

/-- CLAIM C6 counterexample.  `match_node` stores whatever
`overall_score` the judge reported, without recomputing or validating the
advertised weighted formula: a judge object scoring 0/0/0 with
`overall_score = 77` is normalized to a raw match whose stored overall
score is 77, while the formula yields 0. -/
theorem C6_counterexample_overall_not_recomputed :
    (normalizeMatch ⟨some 1, some 2, some 0, some 0, some 0, some 77, none, none⟩).overall_score = 77
    ∧ (normalizeMatch ⟨some 1, some 2, some 0, some 0, some 0, some 77, none, none⟩).relevance_score = 0
    ∧ (normalizeMatch ⟨some 1, some 2, some 0, some 0, some 0, some 77, none, none⟩).feasibility_score = 0
    ∧ (normalizeMatch ⟨some 1, some 2, some 0, some 0, some 0, some 77, none, none⟩).impact_score = 0
    ∧ (77 : ℚ) ≠ 0.40 * 0 + 0.35 * 0 + 0.25 * 0 :=
  ⟨rfl, rfl, rfl, rfl, by norm_num⟩

/-- CLAIM C6 (amended).  The prompt instructs the judge to compute
`overall = 0.40*relevance + 0.35*feasibility + 0.25*impact` with each
component in 0–100, but the code stores the judge-reported scores
verbatim (missing fields default to 0): the stored fields equal the
reported ones, and the weighted formula holds for the stored match
exactly when the judge's reported values satisfied it. -/
theorem C6_scores_passthrough (m : PyMatchObj) (r f i o : ℚ)
    (hr : m.relevance_score = some r) (hf : m.feasibility_score = some f)
    (hi : m.impact_score = some i) (ho : m.overall_score = some o) :
    ((normalizeMatch m).relevance_score = r
      ∧ (normalizeMatch m).feasibility_score = f
      ∧ (normalizeMatch m).impact_score = i
      ∧ (normalizeMatch m).overall_score = o)
    ∧ (o = 0.40 * r + 0.35 * f + 0.25 * i →
        (normalizeMatch m).overall_score
          = 0.40 * (normalizeMatch m).relevance_score
            + 0.35 * (normalizeMatch m).feasibility_score
            + 0.25 * (normalizeMatch m).impact_score) := by
  simp [normalizeMatch, hr, hf, hi, ho]

/-- Witness for C6 (amended): a judge object that did follow the formula
(`0.40*80 + 0.35*90 + 0.25*100 = 88.5`). -/
theorem C6_scores_passthrough_witness :
    ((⟨some 1, some 2, some 80, some 90, some 100, some 88.5, none,
        none⟩ : PyMatchObj).relevance_score = some 80)
    ∧ (normalizeMatch ⟨some 1, some 2, some 80, some 90, some 100, some 88.5, none,
        none⟩).overall_score
      = 0.40 * (normalizeMatch ⟨some 1, some 2, some 80, some 90, some 100, some 88.5,
            none, none⟩).relevance_score
        + 0.35 * (normalizeMatch ⟨some 1, some 2, some 80, some 90, some 100, some 88.5,
            none, none⟩).feasibility_score
        + 0.25 * (normalizeMatch ⟨some 1, some 2, some 80, some 90, some 100, some 88.5,
            none, none⟩).impact_score :=
  ⟨rfl,
   (C6_scores_passthrough ⟨some 1, some 2, some 80, some 90, some 100, some 88.5, none,
        none⟩ 80 90 100 88.5 rfl rfl rfl rfl).2 (by norm_num)⟩

/-- CLAIM C7.  The critique merge produces exactly one critiqued match
per raw match, positionally (merge-by-key on
`(researcher_id, opportunity_id)`), and a raw match with no corresponding
critic output keeps all four original scores unchanged (with empty
critique text and clear flags); no raw match is dropped for lack of
critic output. -/
theorem C7_merge_one_per_match (raw : List RawMatch) (reviews : List CriticReview)
    (i : Nat) (m : RawMatch) (hm : raw[i]? = some m) :
    (mergeCritiques raw reviews).length = raw.length
    ∧ (mergeCritiques raw reviews)[i]?.isSome = true
    ∧ ∀ out, (mergeCritiques raw reviews)[i]? = some out →
        out.researcher_id = m.researcher_id
        ∧ out.opportunity_id = m.opportunity_id
        ∧ out.confidence = m.confidence
        ∧ out.justification = m.justification
        ∧ (criticLookup reviews (m.researcher_id, m.opportunity_id) = none →
            out.relevance_score = m.relevance_score
            ∧ out.feasibility_score = m.feasibility_score
            ∧ out.impact_score = m.impact_score
            ∧ out.overall_score = m.overall_score
            ∧ out.critique = "" ∧ out.flagged = false ∧ out.revision_needed = false) := by
  have hmap : (mergeCritiques raw reviews)[i]? = some (mergeOne reviews m) := by
    simp [mergeCritiques, List.getElem?_map, hm]
  refine ⟨by simp [mergeCritiques], by simp [hmap], ?_⟩
  intro out hout
  rw [hmap] at hout
  injection hout with hout
  subst hout
  refine ⟨rfl, rfl, rfl, rfl, ?_⟩
  intro hnone
  simp [mergeOne, hnone, AdjScores.empty]

/-- Witness for C7: a single raw match and an empty critic output. -/
theorem C7_merge_one_per_match_witness :
    (([(⟨some 1, some 2, 50, 60, 70, 58, "medium", "fits"⟩ : RawMatch)])[0]?
        = some (⟨some 1, some 2, 50, 60, 70, 58, "medium", "fits"⟩ : RawMatch))
    ∧ (mergeCritiques [⟨some 1, some 2, 50, 60, 70, 58, "medium", "fits"⟩] []).length
        = ([(⟨some 1, some 2, 50, 60, 70, 58, "medium", "fits"⟩ : RawMatch)]).length
    ∧ ((mergeCritiques [⟨some 1, some 2, 50, 60, 70, 58, "medium", "fits"⟩] [])[0]?.isSome
        = true) :=
  ⟨rfl,
   (C7_merge_one_per_match [⟨some 1, some 2, 50, 60, 70, 58, "medium", "fits"⟩] [] 0
      ⟨some 1, some 2, 50, 60, 70, 58, "medium", "fits"⟩ rfl).1,
   (C7_merge_one_per_match [⟨some 1, some 2, 50, 60, 70, 58, "medium", "fits"⟩] [] 0
      ⟨some 1, some 2, 50, 60, 70, 58, "medium", "fits"⟩ rfl).2.1⟩

/-- Closed form of the `match_node` batch loop: every successful batch
gets a `"completed"` Step and the accumulated matches are the
concatenated per-batch contributions. -/
theorem matchBatchLoop_eq (loads : PyStr → Option JVal) (resps : List PyStr) :
    matchBatchLoop loads resps
      = (resps.map (fun _ => "completed"),
         (resps.map (batchContribution loads)).flatten) := by
  induction resps with
  | nil => rfl
  | cons r rest ih => simp [matchBatchLoop, ih]

/-- CLAIM C8 counterexample.  For a batch whose judge output cannot be
parsed as structured data, the claim says the batch's Step is recorded
`failed` or `skipped`; but `_invoke_agent` records the Step with status
`"completed"` as soon as the LLM call returns — the parse failure occurs
afterwards in `match_node` and is never reflected in the Step. -/
theorem C8_counterexample_step_completed :
    safe_json_parse (fun _ => none) ("the judge rambled".toList) = none
    ∧ (matchBatchLoop (fun _ => none) [("the judge rambled".toList)]).1 = ["completed"]
    ∧ (matchBatchLoop (fun _ => none) [("the judge rambled".toList)]).2 = []
    ∧ "completed" ≠ "failed" ∧ "completed" ≠ "skipped" :=
  ⟨rfl, rfl, rfl, by decide, by decide⟩

/-- CLAIM C8 (amended).  A batch whose judge output cannot be parsed as
structured data contributes zero matches and does not abort the run — the
remaining batches are all processed and the total contribution is just
the concatenation over batches — but its Step is recorded with status
`"completed"` (not `failed`/`skipped`). -/
theorem C8_parse_failure_batch (loads : PyStr → Option JVal) (resps : List PyStr)
    (i : Nat) (r : PyStr) (hr : resps[i]? = some r)
    (hparse : safe_json_parse loads r = none) :
    batchContribution loads r = []
    ∧ (matchBatchLoop loads resps).1.length = resps.length
    ∧ (matchBatchLoop loads resps).1[i]? = some "completed"
    ∧ (matchBatchLoop loads resps).2 = (resps.map (batchContribution loads)).flatten := by
  have hi : i < resps.length := by
    by_contra hge
    rw [List.getElem?_eq_none (Nat.le_of_not_lt hge)] at hr
    exact Option.noConfusion hr
  refine ⟨?_, ?_, ?_, ?_⟩
  · unfold batchContribution
    rw [hparse]
  · simp [matchBatchLoop_eq]
  · simp [matchBatchLoop_eq, List.getElem?_map, hr, hi]
  · simp [matchBatchLoop_eq]

/-- Witness for C8 (amended): a one-batch run whose only response is
unparseable. -/
theorem C8_parse_failure_batch_witness :
    (([("ok".toList)])[0]? = some ("ok".toList))
    ∧ safe_json_parse (fun _ => none) ("ok".toList) = none
    ∧ batchContribution (fun _ => none) ("ok".toList) = []
    ∧ (matchBatchLoop (fun _ => none) [("ok".toList)]).1.length = ([("ok".toList)]).length :=
  ⟨rfl, rfl,
   (C8_parse_failure_batch (fun _ => none) [("ok".toList)] 0 ("ok".toList) rfl rfl).1,
   (C8_parse_failure_batch (fun _ => none) [("ok".toList)] 0 ("ok".toList) rfl rfl).2.1⟩

/-- Inter-boot updates never touch `retry_count`. -/
theorem applyUpdate_retry (u : Option InterBootUpdate) (r : RunRec) :
    (applyUpdate u r).retry_count = r.retry_count := by
  cases u <;> rfl

/-- Each boot either relaunches — which requires `retry_count` below the
cap and increments it — or leaves `retry_count` unchanged. -/
theorem applyBoot_retry (cf : Bool) (r : RunRec) :
    ((applyBoot cf r).2 = true ∧ r.retry_count < MAX_AUTO_RETRIES
        ∧ (applyBoot cf r).1.retry_count = r.retry_count + 1)
    ∨ ((applyBoot cf r).2 = false ∧ (applyBoot cf r).1.retry_count = r.retry_count) := by
  unfold applyBoot
  split_ifs with h1 h2 h3 <;> simp_all <;> omega

/-- The number of relaunches over any sequence of boots is bounded by the
remaining retry budget. -/
theorem runBoots_le (events : List (Option InterBootUpdate × Bool)) :
    ∀ r : RunRec, (runBoots events r).2 ≤ MAX_AUTO_RETRIES - r.retry_count := by
  induction events with
  | nil => intro r; simp [runBoots]
  | cons e rest ih =>
      intro r
      obtain ⟨u, cf⟩ := e
      have hupd := applyUpdate_retry u r
      have hrec := ih (applyBoot cf (applyUpdate u r)).1
      have hrb : (runBoots ((u, cf) :: rest) r).2
          = (if (applyBoot cf (applyUpdate u r)).2 then 1 else 0)
            + (runBoots rest (applyBoot cf (applyUpdate u r)).1).2 := rfl
      rw [hrb]
      rcases applyBoot_retry cf (applyUpdate u r) with ⟨h2, hlt, hinc⟩ | ⟨h2, heq⟩ <;>
        rw [h2] <;> simp only [if_true, Bool.false_eq_true, if_false] <;> omega

/-- CLAIM C9.  Resume-on-boot enforces the retry cap: a considered Run
whose `retry_count` has reached 10 is marked terminally `failed` with a
null `checkpoint_state` and is not relaunched; a Run below the cap is
relaunched with `retry_count` incremented first; and over any lifetime of
boots (with arbitrary crashes and re-failures in between) a Run starting
at `retry_count = 0` is relaunched at most 10 times — never an 11th. -/
theorem C9_retry_cap (r : RunRec) (cf : Bool)
    (events : List (Option InterBootUpdate × Bool)) (r0 : RunRec)
    (hsel : selectedForResume r = true) (hcf : cf = false)
    (h10 : MAX_AUTO_RETRIES ≤ r.retry_count) (h0 : r0.retry_count = 0) :
    ((applyBoot cf r).1.status = "failed"
      ∧ (applyBoot cf r).1.checkpoint_state = none
      ∧ (applyBoot cf r).2 = false)
    ∧ (∀ s : RunRec, selectedForResume s = true → s.retry_count < MAX_AUTO_RETRIES →
        (applyBoot false s).2 = true
        ∧ (applyBoot false s).1.retry_count = s.retry_count + 1)
    ∧ (runBoots events r0).2 ≤ MAX_AUTO_RETRIES := by
  refine ⟨?_, ?_, ?_⟩
  · unfold applyBoot
    rw [hcf]
    simp [hsel, h10]
  · intro s hs hlt
    unfold applyBoot
    simp [hs, Nat.not_le.mpr hlt]
  · have h := runBoots_le events r0
    rw [h0] at h
    simpa using h

/-- Witness for C9: a capped Run (`retry_count = 10`, `failed` with a
checkpoint) and a fresh Run over an empty boot history. -/
theorem C9_retry_cap_witness :
    (selectedForResume ⟨"failed", some ['s'], some "plan", 10, none⟩ = true
      ∧ MAX_AUTO_RETRIES ≤ 10
      ∧ (⟨"pending", none, none, 0, none⟩ : RunRec).retry_count = 0)
    ∧ (applyBoot false ⟨"failed", some ['s'], some "plan", 10, none⟩).1.status = "failed"
    ∧ (applyBoot false ⟨"failed", some ['s'], some "plan", 10, none⟩).1.checkpoint_state = none
    ∧ (applyBoot false ⟨"failed", some ['s'], some "plan", 10, none⟩).2 = false
    ∧ (runBoots [] ⟨"pending", none, none, 0, none⟩).2 ≤ MAX_AUTO_RETRIES :=
  ⟨⟨by decide, by decide, rfl⟩,
   (C9_retry_cap ⟨"failed", some ['s'], some "plan", 10, none⟩ false []
      ⟨"pending", none, none, 0, none⟩ (by decide) rfl (by decide) rfl).1.1,
   (C9_retry_cap ⟨"failed", some ['s'], some "plan", 10, none⟩ false []
      ⟨"pending", none, none, 0, none⟩ (by decide) rfl (by decide) rfl).1.2.1,
   (C9_retry_cap ⟨"failed", some ['s'], some "plan", 10, none⟩ false []
      ⟨"pending", none, none, 0, none⟩ (by decide) rfl (by decide) rfl).1.2.2,
   (C9_retry_cap ⟨"failed", some ['s'], some "plan", 10, none⟩ false []
      ⟨"pending", none, none, 0, none⟩ (by decide) rfl (by decide) rfl).2.2⟩

end ProposalForge
